import Mathlib

/-!
Verification of the session-authenticated tasks/projects REST backend
(`src/server.js`). The Express handlers are embedded shallowly: each route
handler becomes a pure Lean function from the request and the database state
to a response and a new state. JavaScript values flowing through request
bodies and session fields are modelled by `JVal` (with JS truthiness);
response JSON bodies by `Json`. A possible exception thrown by the
persistence collaborator inside a handler's `try` block is modelled by an
`Option String` argument (`some e` carries the detail of the thrown error).
-/

namespace SrvSpec

/-- A scalar JavaScript value as it appears in request bodies, session fields
and stored entity attributes: `undefined`, `null`, booleans, numbers, strings. -/
inductive JVal where
  | undefined : JVal
  | null : JVal
  | bool : Bool → JVal
  | num : Int → JVal
  | str : String → JVal
deriving DecidableEq, Repr

/-- JavaScript truthiness of a `JVal`, as used by `if (req.session && req.session.userId)`. -/
def truthy : JVal → Bool
  | .undefined => false
  | .null => false
  | .bool b => b
  | .num n => n != 0
  | .str s => s != ""

/-- A JSON document, used for response bodies (`res.json(...)`). -/
inductive Json where
  | val : JVal → Json
  | arr : List Json → Json
  | obj : List (String × Json) → Json

/-- The keys of a JSON object (empty for non-objects). -/
def Json.keys : Json → List String
  | .obj l => l.map (fun p => p.1)
  | _ => []

/-- Field lookup in a JSON object (first binding wins), `none` otherwise. -/
def Json.lookup (j : Json) (k : String) : Option Json :=
  match j with
  | .obj l => (l.find? (fun p => p.1 == k)).map (fun p => p.2)
  | _ => none

/-- A request body: a flat JSON object. Destructuring `const \x7b name \x7d = req.body`
reads a field, yielding `undefined` when the field is absent. -/
def Body := List (String × JVal)

/-- Field access on a body: the destructured value, `undefined` when absent. -/
def Body.get (b : Body) (k : String) : JVal :=
  match b.find? (fun p => p.1 == k) with
  | some p => p.2
  | none => .undefined

/-- The session record written by the login handler:
`req.session.userId / username / userEmail`. -/
structure SessionData where
  userId : JVal
  username : JVal
  userEmail : JVal
deriving DecidableEq, Repr

/-- The identity `requireAuth` attaches as `req.user`. -/
structure UserCtx where
  id : JVal
  username : JVal
  email : JVal
deriving DecidableEq, Repr

/-- An inbound request: the `:id` route parameter, the JSON body, and the
session (`none` when no session object is attached to the request). -/
structure Request where
  paramsId : Nat
  body : Body
  session : Option SessionData

/-- An HTTP response: status code and JSON body. -/
structure Response where
  status : Nat
  body : Json

/-- A stored Project row. Modelled from the spec: the Sequelize model in
`./database/setup` (not under `src/`) has name, description, status, due date
and an owner id column `userId`; `id` is the integer primary key. -/
structure Project where
  id : Nat
  name : JVal
  description : JVal
  status : JVal
  dueDate : JVal
  userId : JVal
deriving DecidableEq, Repr

/-- A stored Task row. Modelled from the spec: title, description, completed
flag, priority, due date and an optional `projectId`; `id` is the primary key. -/
structure Task where
  id : Nat
  title : JVal
  description : JVal
  completed : JVal
  priority : JVal
  dueDate : JVal
  projectId : JVal
deriving DecidableEq, Repr

/-- A stored User row. Modelled from the spec: unique email, username, and the
stored password hash in the `password` column; `id` is the primary key. -/
structure User where
  id : Nat
  username : JVal
  email : JVal
  password : JVal
deriving DecidableEq, Repr

/-- The state of the persistence collaborator: the three tables plus the next
auto-increment key for each. -/
structure DB where
  projects : List Project
  tasks : List Task
  users : List User
  nextProjectId : Nat
  nextTaskId : Nat
  nextUserId : Nat
deriving DecidableEq, Repr

/-- Modelled from the spec: `Project.findAll()` returns all project rows. -/
def Project.findAll (db : DB) : List Project := db.projects

/-- Modelled from the spec: `Project.findByPk(id)` returns the row with that
primary key, or nothing. -/
def Project.findByPk (db : DB) (i : Nat) : Option Project :=
  db.projects.find? (fun p => p.id == i)

/-- Modelled from the spec: `Project.create(fields)` inserts a fresh row under
the next auto-increment key and returns it. -/
def Project.create (db : DB) (name description status dueDate userId : JVal) :
    Project × DB :=
  let p : Project := ⟨db.nextProjectId, name, description, status, dueDate, userId⟩
  (p, { db with projects := db.projects ++ [p], nextProjectId := db.nextProjectId + 1 })

/-- Modelled from the spec: `Project.update(fields, where id)` performs a
full-field update of every matching row with exactly the provided values
(absent body fields arrive as `undefined` and overwrite), returning the number
of affected rows. -/
def Project.update (db : DB) (i : Nat) (name description status dueDate : JVal) :
    Nat × DB :=
  ((db.projects.filter (fun p => p.id == i)).length,
   { db with projects := db.projects.map (fun p =>
      if p.id == i then
        { p with name := name, description := description,
                 status := status, dueDate := dueDate }
      else p) })

/-- Modelled from the spec: `Project.destroy(where id)` removes the matching
rows and returns how many were removed. -/
def Project.destroy (db : DB) (i : Nat) : Nat × DB :=
  let remaining := db.projects.filter (fun p => p.id != i)
  (db.projects.length - remaining.length, { db with projects := remaining })

/-- Modelled from the spec: `Task.findAll()` returns all task rows. -/
def Task.findAll (db : DB) : List Task := db.tasks

/-- Modelled from the spec: `Task.findByPk(id)`. -/
def Task.findByPk (db : DB) (i : Nat) : Option Task :=
  db.tasks.find? (fun t => t.id == i)

/-- Modelled from the spec: `Task.create(fields)`. -/
def Task.create (db : DB) (title description completed priority dueDate projectId : JVal) :
    Task × DB :=
  let t : Task := ⟨db.nextTaskId, title, description, completed, priority, dueDate, projectId⟩
  (t, { db with tasks := db.tasks ++ [t], nextTaskId := db.nextTaskId + 1 })

/-- Modelled from the spec: `Task.update(fields, where id)`, full-field update
of matching rows, returning the affected-row count. -/
def Task.update (db : DB) (i : Nat)
    (title description completed priority dueDate projectId : JVal) : Nat × DB :=
  ((db.tasks.filter (fun t => t.id == i)).length,
   { db with tasks := db.tasks.map (fun t =>
      if t.id == i then
        { t with title := title, description := description, completed := completed,
                 priority := priority, dueDate := dueDate, projectId := projectId }
      else t) })

/-- Modelled from the spec: `Task.destroy(where id)`. -/
def Task.destroy (db : DB) (i : Nat) : Nat × DB :=
  let remaining := db.tasks.filter (fun t => t.id != i)
  (db.tasks.length - remaining.length, { db with tasks := remaining })

/-- Modelled from the spec: `User.findOne(where email)` returns the first user
row whose email column equals the given value. -/
def User.findOne (db : DB) (email : JVal) : Option User :=
  db.users.find? (fun u => u.email == email)

/-- Modelled from the spec: `User.create(fields)`. -/
def User.create (db : DB) (username email password : JVal) : User × DB :=
  let u : User := ⟨db.nextUserId, username, email, password⟩
  (u, { db with users := db.users ++ [u], nextUserId := db.nextUserId + 1 })

/-- An injective encoding of a scalar value into a string, used to model the
password hash. -/
def JVal.enc : JVal → String
  | .undefined => "u"
  | .null => "n"
  | .bool b => if b then "bt" else "bf"
  | .num n => "i" ++ toString n
  | .str s => "s" ++ s

/-- Modelled from the spec: the Credential Service (`bcryptjs`, external)
produces a salted one-way hash at work factor 10; modelled as an injective
encoding into a tagged string. -/
def bcryptHash (password : JVal) : JVal :=
  .str ("$2a$10$" ++ password.enc)

/-- Modelled from the spec: `bcrypt.compare(password, hash)` verifies a
password against a stored hash, returning false on mismatch, never throwing. -/
def bcryptCompare (password stored : JVal) : Bool :=
  stored == bcryptHash password

/-- A 500 response with a generic error message: `res.status(500).json(\x7b error: msg \x7d)`. -/
def generic500 (msg : String) : Response :=
  ⟨500, .obj [("error", .val (.str msg))]⟩

/-- A 404 response: `res.status(404).json(\x7b error: msg \x7d)`. -/
def notFound404 (msg : String) : Response :=
  ⟨404, .obj [("error", .val (.str msg))]⟩

/-- The 401 response issued by `requireAuth` when no user is logged in. -/
def authFailResp : Response :=
  ⟨401, .obj [("error", .val (.str "Authentication required. Please log in."))]⟩

/-- The 401 response issued by the login handler on unknown email or password
mismatch. -/
def invalidCredResp : Response :=
  ⟨401, .obj [("error", .val (.str "Invalid email or password"))]⟩

/-- Serialization of a project row, as `res.json` renders it. -/
def Project.toJson (p : Project) : Json :=
  .obj [("id", .val (.num p.id)), ("name", .val p.name),
        ("description", .val p.description), ("status", .val p.status),
        ("dueDate", .val p.dueDate), ("userId", .val p.userId)]

/-- Serialization of a task row, as `res.json` renders it. -/
def Task.toJson (t : Task) : Json :=
  .obj [("id", .val (.num t.id)), ("title", .val t.title),
        ("description", .val t.description), ("completed", .val t.completed),
        ("priority", .val t.priority), ("dueDate", .val t.dueDate),
        ("projectId", .val t.projectId)]

/-- The authentication middleware `requireAuth` (src/server.js:24): when the
request has a session whose `userId` is truthy it yields the attached
`req.user` identity, otherwise nothing (the 401 path). -/
def requireAuth (req : Request) : Option UserCtx :=
  match req.session with
  | some s => if truthy s.userId then some ⟨s.userId, s.username, s.userEmail⟩ else none
  | none => none

/-- `GET /api/projects` handler body (src/server.js:57): list all projects,
200 with the array, or 500 when `findAll` throws. -/
def getProjectsHandler (fail : Option String) (db : DB) : Response × DB :=
  match fail with
  | some _ => (generic500 "Failed to fetch projects", db)
  | none => (⟨200, .arr ((Project.findAll db).map Project.toJson)⟩, db)

/-- `GET /api/projects/:id` handler (src/server.js:68): 200 with the row,
404 when absent, 500 when the lookup throws. -/
def getProjectHandler (fail : Option String) (db : DB) (req : Request) : Response × DB :=
  match fail with
  | some _ => (generic500 "Failed to fetch project", db)
  | none =>
    match Project.findByPk db req.paramsId with
    | none => (notFound404 "Project not found", db)
    | some p => (⟨200, p.toJson⟩, db)

/-- `POST /api/projects` handler (src/server.js:84): destructures name,
description, status, dueDate from the body, creates the row with
`userId: req.user.id`, 201 with the created row, 500 when `create` throws. -/
def createProjectHandler (user : UserCtx) (fail : Option String) (db : DB)
    (body : Body) : Response × DB :=
  match fail with
  | some _ => (generic500 "Failed to create project", db)
  | none =>
    let r := Project.create db (body.get "name") (body.get "description")
      (body.get "status") (body.get "dueDate") user.id
    (⟨201, r.1.toJson⟩, r.2)

/-- `PUT /api/projects/:id` handler (src/server.js:104): full-field update
from the body, 404 when zero rows affected, otherwise re-fetch by id and
return 200 (`res.json(null)` if the re-fetch finds nothing), 500 on throw. -/
def updateProjectHandler (fail : Option String) (db : DB) (req : Request) :
    Response × DB :=
  match fail with
  | some _ => (generic500 "Failed to update project", db)
  | none =>
    let r := Project.update db req.paramsId (req.body.get "name")
      (req.body.get "description") (req.body.get "status") (req.body.get "dueDate")
    if r.1 == 0 then (notFound404 "Project not found", r.2)
    else
      match Project.findByPk r.2 req.paramsId with
      | some p => (⟨200, p.toJson⟩, r.2)
      | none => (⟨200, .val .null⟩, r.2)

/-- `DELETE /api/projects/:id` handler (src/server.js:126): 404 when zero rows
affected, otherwise 200 with the deleted-successfully message, 500 on throw. -/
def deleteProjectHandler (fail : Option String) (db : DB) (req : Request) :
    Response × DB :=
  match fail with
  | some _ => (generic500 "Failed to delete project", db)
  | none =>
    let r := Project.destroy db req.paramsId
    if r.1 == 0 then (notFound404 "Project not found", r.2)
    else (⟨200, .obj [("message", .val (.str "Project deleted successfully"))]⟩, r.2)

/-- `GET /api/tasks` handler (src/server.js:146). -/
def getTasksHandler (fail : Option String) (db : DB) : Response × DB :=
  match fail with
  | some _ => (generic500 "Failed to fetch tasks", db)
  | none => (⟨200, .arr ((Task.findAll db).map Task.toJson)⟩, db)

/-- `GET /api/tasks/:id` handler (src/server.js:157). -/
def getTaskHandler (fail : Option String) (db : DB) (req : Request) : Response × DB :=
  match fail with
  | some _ => (generic500 "Failed to fetch task", db)
  | none =>
    match Task.findByPk db req.paramsId with
    | none => (notFound404 "Task not found", db)
    | some t => (⟨200, t.toJson⟩, db)

/-- `POST /api/tasks` handler (src/server.js:173): no owner injection. -/
def createTaskHandler (fail : Option String) (db : DB) (body : Body) :
    Response × DB :=
  match fail with
  | some _ => (generic500 "Failed to create task", db)
  | none =>
    let r := Task.create db (body.get "title") (body.get "description")
      (body.get "completed") (body.get "priority") (body.get "dueDate")
      (body.get "projectId")
    (⟨201, r.1.toJson⟩, r.2)

/-- `PUT /api/tasks/:id` handler (src/server.js:194). -/
def updateTaskHandler (fail : Option String) (db : DB) (req : Request) :
    Response × DB :=
  match fail with
  | some _ => (generic500 "Failed to update task", db)
  | none =>
    let r := Task.update db req.paramsId (req.body.get "title")
      (req.body.get "description") (req.body.get "completed")
      (req.body.get "priority") (req.body.get "dueDate") (req.body.get "projectId")
    if r.1 == 0 then (notFound404 "Task not found", r.2)
    else
      match Task.findByPk r.2 req.paramsId with
      | some t => (⟨200, t.toJson⟩, r.2)
      | none => (⟨200, .val .null⟩, r.2)

/-- `DELETE /api/tasks/:id` handler (src/server.js:216). -/
def deleteTaskHandler (fail : Option String) (db : DB) (req : Request) :
    Response × DB :=
  match fail with
  | some _ => (generic500 "Failed to delete task", db)
  | none =>
    let r := Task.destroy db req.paramsId
    if r.1 == 0 then (notFound404 "Task not found", r.2)
    else (⟨200, .obj [("message", .val (.str "Task deleted successfully"))]⟩, r.2)

/-- `POST /api/register` handler (src/server.js:234): 400 when a user with the
body email exists, otherwise hash the password, create the user and return
201 with `\x7bmessage, user: \x7bid, username, email\x7d\x7d`; 500 on throw. -/
def registerHandler (fail : Option String) (db : DB) (body : Body) :
    Response × DB :=
  match fail with
  | some _ => (generic500 "Failed to register user", db)
  | none =>
    match User.findOne db (body.get "email") with
    | some _ =>
      (⟨400, .obj [("error", .val (.str "User with this email already exists"))]⟩, db)
    | none =>
      let hashed := bcryptHash (body.get "password")
      let r := User.create db (body.get "username") (body.get "email") hashed
      (⟨201, .obj [("message", .val (.str "User registered successfully")),
        ("user", .obj [("id", .val (.num r.1.id)),
          ("username", .val r.1.username), ("email", .val r.1.email)])]⟩, r.2)

/-- `POST /api/login` handler (src/server.js:270): the response and, on
success, the session record written to `req.session` (`none` means the
session is left as it was). -/
def loginHandler (fail : Option String) (db : DB) (body : Body) :
    Response × Option SessionData :=
  match fail with
  | some _ => (generic500 "Failed to login", none)
  | none =>
    match User.findOne db (body.get "email") with
    | none => (invalidCredResp, none)
    | some u =>
      if bcryptCompare (body.get "password") u.password then
        (⟨200, .obj [("message", .val (.str "Login successful")),
          ("user", .obj [("id", .val (.num u.id)),
            ("username", .val u.username), ("email", .val u.email)])]⟩,
         some ⟨.num u.id, u.username, u.email⟩)
      else (invalidCredResp, none)

/-- `POST /api/logout` handler (src/server.js:307): destroy the session;
`destroyErr` is the error the destroy callback may receive. -/
def logoutHandler (destroyErr : Option String) : Response :=
  match destroyErr with
  | some _ => generic500 "Failed to logout"
  | none => ⟨200, .obj [("message", .val (.str "Logout successful"))]⟩

/-- The routes registered on the Express app, in source order. -/
inductive Route where
  | listProjects | getProject | createProject | updateProject | deleteProject
  | listTasks | getTask | createTask | updateTask | deleteTask
  | register | login | logout
deriving DecidableEq, Repr

/-- The route table: exactly `GET /api/projects` and `POST /api/projects` are
registered with the `requireAuth` middleware (src/server.js:57 and 84). -/
def gated : Route → Bool
  | .listProjects => true
  | .createProject => true
  | _ => false

/-- The app: route a request to its handler, running `requireAuth` first on
the gated routes. Returns the response and the database after the handler. -/
def dispatch (r : Route) (fail : Option String) (db : DB) (req : Request) :
    Response × DB :=
  match r with
  | .listProjects =>
    match requireAuth req with
    | none => (authFailResp, db)
    | some _ => getProjectsHandler fail db
  | .getProject => getProjectHandler fail db req
  | .createProject =>
    match requireAuth req with
    | none => (authFailResp, db)
    | some u => createProjectHandler u fail db req.body
  | .updateProject => updateProjectHandler fail db req
  | .deleteProject => deleteProjectHandler fail db req
  | .listTasks => getTasksHandler fail db
  | .getTask => getTaskHandler fail db req
  | .createTask => createTaskHandler fail db req.body
  | .updateTask => updateTaskHandler fail db req
  | .deleteTask => deleteTaskHandler fail db req
  | .register => registerHandler fail db req.body
  | .login => ((loginHandler fail db req.body).1, db)
  | .logout => (logoutHandler fail, db)

/-- The ungated routes named by the policy claim: project read/update/delete
and every task route. -/
def ungatedCrudRoutes : List Route :=
  [.getProject, .updateProject, .deleteProject,
   .listTasks, .getTask, .createTask, .updateTask, .deleteTask]

/-! Concrete fixtures used by the witness theorems. -/

/-- An empty database. -/
def sampleDB : DB := ⟨[], [], [], 1, 1, 1⟩

/-- A logged-in session for user 7. -/
def sampleSession : SessionData := ⟨.num 7, .str "alice", .str "alice@example.com"⟩

/-- An authenticated request whose body also smuggles a `userId` field. -/
def sampleReq : Request := ⟨1, [("name", .str "p1"), ("userId", .num 99)], some sampleSession⟩

/-- A request with no session attached. -/
def noSessionReq : Request := ⟨1, [], none⟩

/-- A session whose `userId` is the falsy number 0. -/
def falsySession : SessionData := ⟨.num 0, .str "bob", .str "bob@example.com"⟩

/-- A request carrying the falsy session. -/
def falsyReq : Request := ⟨1, [], some falsySession⟩

/-- A registration body. -/
def regBody : Body := [("username", .str "alice"), ("email", .str "alice@example.com"), ("password", .str "pw1")]

/-- A second registration body with the same email. -/
def regBody2 : Body := [("username", .str "alice2"), ("email", .str "alice@example.com"), ("password", .str "pw2")]

/-- The database after registering `regBody` on the empty database. -/
def oneUserDB : DB := (registerHandler none sampleDB regBody).2

/-- A login body with an unknown email. -/
def missBody : Body := [("email", .str "nobody@example.com"), ("password", .str "pw1")]

/-- A login body with the right email and the wrong password. -/
def wrongPwBody : Body := [("email", .str "alice@example.com"), ("password", .str "bad")]

/-- The database after creating one project through the authenticated request. -/
def oneProjDB : DB := (dispatch .createProject none sampleDB sampleReq).2

/-- An update request touching only the status field. -/
def updReq : Request := ⟨1, [("status", .str "done")], none⟩

/-! Helper lemmas shared by several claims. -/

/-- Removing the rows matching a key shrinks the list by exactly the number of
matching rows. -/
theorem length_sub_filter_ne {α : Type} (key : α → Nat) (l : List α) (i : Nat) :
    l.length - (l.filter (fun a => key a != i)).length =
      (l.filter (fun a => key a == i)).length := by
  induction l with
  | nil => simp
  | cons a l ih =>
    have hle := List.length_filter_le (fun a => key a != i) l
    by_cases h : key a = i <;> simp [h, List.filter_cons] <;> omega

/-- A keyed full-field update commutes with first-match lookup: the re-fetched
row is the updated row, provided the update preserves the key. -/
theorem find?_map_upd {α : Type} (key : α → Nat) (l : List α) (i : Nat)
    (f : α → α) (hf : ∀ a, key (f a) = key a) (x : α)
    (h : l.find? (fun a => key a == i) = some x) :
    (l.map (fun a => if key a == i then f a else a)).find? (fun a => key a == i) =
      some (f x) := by
  induction l with
  | nil => simp at h
  | cons a l ih =>
    by_cases ha : key a = i
    · have hb : (key a == i) = true := beq_iff_eq.mpr ha
      rw [List.find?_cons_of_pos (p := fun b => key b == i) _ hb] at h
      injection h with h
      rw [List.map_cons, if_pos hb, List.find?_cons_of_pos (p := fun b => key b == i) _
        (show (key (f a) == i) = true by rw [hf]; exact hb), h]
    · have hb : ¬((key a == i) = true) := by simp [ha]
      rw [List.find?_cons_of_neg (p := fun b => key b == i) _ hb] at h
      rw [List.map_cons, if_neg hb, List.find?_cons_of_neg (p := fun b => key b == i) _ hb]
      exact ih h

/-- Claim C1: exactly project listing and project creation are gated; project
read/update/delete and every task route run with no session check (the session
never influences the outcome) and never answer 401. -/
theorem routes_gated_exactly_list_and_create (r : Route) (fail : Option String)
    (db : DB) (req : Request) :
    (r ∈ ungatedCrudRoutes →
      dispatch r fail db req = dispatch r fail db { req with session := none } ∧
      (dispatch r fail db req).1.status ≠ 401) ∧
    (gated r = true ↔ (r = .listProjects ∨ r = .createProject)) ∧
    (req.session = none →
      dispatch .listProjects fail db req = (authFailResp, db) ∧
      dispatch .createProject fail db req = (authFailResp, db)) := by
  refine ⟨?_, by cases r <;> simp [gated], fun hs => by
    simp [dispatch, requireAuth, hs, authFailResp]⟩
  intro hr
  constructor
  · fin_cases hr <;> rfl
  · rcases fail with _ | e
    · fin_cases hr <;>
        (simp only [dispatch, getProjectHandler, updateProjectHandler,
           deleteProjectHandler, getTasksHandler, getTaskHandler, createTaskHandler,
           updateTaskHandler, deleteTaskHandler]
         (try split) <;> (try split) <;> simp [notFound404])
    · fin_cases hr <;>
        simp [dispatch, getProjectHandler, updateProjectHandler,
          deleteProjectHandler, getTasksHandler, getTaskHandler, createTaskHandler,
          updateTaskHandler, deleteTaskHandler, generic500]

/-- Witness for the gating claim: an ungated task route answers a sessionless
request without a 401, while the gated project listing halts with 401. -/
theorem routes_gated_exactly_list_and_create_witness :
    (dispatch .getTask none sampleDB noSessionReq).1.status ≠ 401 ∧
    dispatch .listProjects none sampleDB noSessionReq = (authFailResp, sampleDB) :=
  ⟨((routes_gated_exactly_list_and_create .getTask none sampleDB noSessionReq).1
      (by decide)).2,
   ((routes_gated_exactly_list_and_create .listProjects none sampleDB
      noSessionReq).2.2 rfl).1⟩

/-- Claim C4: on a gated route, a request with no resolvable session halts with
the 401 authentication-required response and the handler never runs (the
database is untouched); when the session resolves, the identity
(id, username, email) is taken from the session and the handler runs with it. -/
theorem auth_gate_contract (fail : Option String) (db : DB) (req : Request) :
    (requireAuth req = none →
      dispatch .listProjects fail db req = (authFailResp, db) ∧
      dispatch .createProject fail db req = (authFailResp, db) ∧
      authFailResp.status = 401) ∧
    (∀ s, req.session = some s → truthy s.userId = true →
      requireAuth req = some ⟨s.userId, s.username, s.userEmail⟩ ∧
      dispatch .listProjects fail db req = getProjectsHandler fail db ∧
      dispatch .createProject fail db req =
        createProjectHandler ⟨s.userId, s.username, s.userEmail⟩ fail db req.body) := by
  constructor
  · intro h
    simp [dispatch, h, authFailResp]
  · intro s hs ht
    have hra : requireAuth req = some ⟨s.userId, s.username, s.userEmail⟩ := by
      simp [requireAuth, hs, ht]
    simp [dispatch, hra]

/-- Witness for the auth-gate contract at concrete requests. -/
theorem auth_gate_contract_witness :
    dispatch .listProjects none sampleDB noSessionReq = (authFailResp, sampleDB) ∧
    dispatch .createProject none sampleDB sampleReq =
      createProjectHandler ⟨.num 7, .str "alice", .str "alice@example.com"⟩
        none sampleDB sampleReq.body :=
  ⟨((auth_gate_contract none sampleDB noSessionReq).1 rfl).1,
   ((auth_gate_contract none sampleDB sampleReq).2 sampleSession rfl (by decide)).2.2⟩

/-- Claim C10: when the session record exists but its `userId` is falsy, the
gate answers 401 and attaches no identity; the gate admits a request exactly
when the session `userId` is truthy. -/
theorem gate_admits_iff_truthy_userId (fail : Option String) (db : DB)
    (req : Request) (s : SessionData) (hs : req.session = some s) :
    (truthy s.userId = false →
      requireAuth req = none ∧
      dispatch .listProjects fail db req = (authFailResp, db) ∧
      dispatch .createProject fail db req = (authFailResp, db)) ∧
    ((requireAuth req).isSome = true ↔ truthy s.userId = true) := by
  constructor
  · intro hf
    have hra : requireAuth req = none := by simp [requireAuth, hs, hf]
    simp [dispatch, hra, authFailResp]
  · by_cases ht : truthy s.userId = true <;> simp [requireAuth, hs, ht]

/-- Witness for the truthiness gate: a session with `userId = 0` is rejected
with 401. -/
theorem gate_admits_iff_truthy_userId_witness :
    dispatch .listProjects none sampleDB falsyReq = (authFailResp, sampleDB) :=
  ((gate_admits_iff_truthy_userId none sampleDB falsyReq falsySession rfl).1
    (by decide)).2.1

/-- Claim C2: a project created by an authenticated user stores that user's
session id as its owner (`userId`), and the outcome depends on the body only
through the four destructured fields (name, description, status, dueDate) —
any `userId`/owner value in the body never influences the stored owner. -/
theorem create_project_owner_from_session (db : DB) (req : Request)
    (s : SessionData) (hs : req.session = some s) (ht : truthy s.userId = true) :
    (∃ p db2, dispatch .createProject none db req = (⟨201, p.toJson⟩, db2) ∧
      p.userId = s.userId ∧ db2.projects = db.projects ++ [p]) ∧
    (∀ b2 : Body, b2.get "name" = req.body.get "name" →
      b2.get "description" = req.body.get "description" →
      b2.get "status" = req.body.get "status" →
      b2.get "dueDate" = req.body.get "dueDate" →
      dispatch .createProject none db { req with body := b2 } =
        dispatch .createProject none db req) := by
  have hra : requireAuth req = some ⟨s.userId, s.username, s.userEmail⟩ := by
    simp [requireAuth, hs, ht]
  constructor
  · refine ⟨⟨db.nextProjectId, req.body.get "name", req.body.get "description",
      req.body.get "status", req.body.get "dueDate", s.userId⟩,
      { db with projects := db.projects ++ [⟨db.nextProjectId, req.body.get "name",
          req.body.get "description", req.body.get "status", req.body.get "dueDate",
          s.userId⟩], nextProjectId := db.nextProjectId + 1 },
      ?_, rfl, rfl⟩
    simp [dispatch, hra, createProjectHandler, Project.create]
  · intro b2 h1 h2 h3 h4
    have hrb : requireAuth { req with body := b2 } = requireAuth req := by
      simp [requireAuth]
    simp [dispatch, hrb, hra, createProjectHandler, Project.create, h1, h2, h3, h4]

/-- Witness for owner injection: the created project's owner is session user 7,
not the 99 smuggled in the body. -/
theorem create_project_owner_from_session_witness :
    ∃ p db2, dispatch .createProject none sampleDB sampleReq = (⟨201, p.toJson⟩, db2) ∧
      p.userId = JVal.num 7 ∧ db2.projects = sampleDB.projects ++ [p] :=
  (create_project_owner_from_session sampleDB sampleReq sampleSession rfl
    (by decide)).1

/-- Claim C3: a login with an unknown email and a login with a known email but
non-verifying password produce the identical 401 response
`\x7berror: "Invalid email or password"\x7d` — the two failure causes are
indistinguishable. -/
theorem login_failures_indistinguishable (db : DB) (b b2 : Body)
    (h1 : User.findOne db (b.get "email") = none) (u : User)
    (h2 : User.findOne db (b2.get "email") = some u)
    (h3 : bcryptCompare (b2.get "password") u.password = false) :
    (loginHandler none db b).1 = invalidCredResp ∧
    (loginHandler none db b2).1 = invalidCredResp ∧
    invalidCredResp.status = 401 ∧
    (loginHandler none db b).1 = (loginHandler none db b2).1 := by
  refine ⟨by simp [loginHandler, h1], by simp [loginHandler, h2, h3], rfl, ?_⟩
  simp [loginHandler, h1, h2, h3]

/-- Witness for login indistinguishability: unknown email versus wrong
password against the one-user database give equal 401 responses. -/
theorem login_failures_indistinguishable_witness :
    (loginHandler none oneUserDB missBody).1 =
      (loginHandler none oneUserDB wrongPwBody).1 :=
  (login_failures_indistinguishable oneUserDB missBody wrongPwBody
    (by decide) ⟨1, .str "alice", .str "alice@example.com",
      bcryptHash (.str "pw1")⟩ (by decide) (by decide)).2.2.2

/-- Claim C5: registering an already-present email answers 400 and leaves the
user table untouched; registering a fresh email then the same email again
gains exactly one row and answers 400 on the second attempt. -/
theorem register_duplicate_email (db : DB) (b b2 : Body)
    (hfresh : User.findOne db (b.get "email") = none)
    (heq : b2.get "email" = b.get "email") :
    (∀ (db3 : DB) (b3 : Body), (User.findOne db3 (b3.get "email")).isSome = true →
      (registerHandler none db3 b3).1.status = 400 ∧
      (registerHandler none db3 b3).2 = db3) ∧
    (registerHandler none db b).1.status = 201 ∧
    ((registerHandler none db b).2).users.length = db.users.length + 1 ∧
    (registerHandler none ((registerHandler none db b).2) b2).1.status = 400 ∧
    (registerHandler none ((registerHandler none db b).2) b2).2 =
      (registerHandler none db b).2 := by
  have hdb2 : (registerHandler none db b).2 =
      { db with users := db.users ++ [⟨db.nextUserId, b.get "username", b.get "email",
          bcryptHash (b.get "password")⟩], nextUserId := db.nextUserId + 1 } := by
    simp [registerHandler, hfresh, User.create]
  have hfind : User.findOne ((registerHandler none db b).2) (b2.get "email") =
      some ⟨db.nextUserId, b.get "username", b.get "email",
        bcryptHash (b.get "password")⟩ := by
    rw [hdb2, heq]
    have hn : db.users.find? (fun u => u.email == b.get "email") = none := hfresh
    simp [User.findOne, List.find?_append, hn]
  have h400 : ∀ (db3 : DB) (b3 : Body) (u : User),
      User.findOne db3 (b3.get "email") = some u →
      (registerHandler none db3 b3).1.status = 400 ∧
      (registerHandler none db3 b3).2 = db3 := by
    intro db3 b3 u hu
    simp [registerHandler, hu]
  refine ⟨?_, by simp [registerHandler, hfresh], by rw [hdb2]; simp,
    (h400 _ b2 _ hfind).1, (h400 _ b2 _ hfind).2⟩
  intro db3 b3 h
  rcases Option.isSome_iff_exists.1 h with ⟨u, hu⟩
  exact h400 db3 b3 u hu

/-- Witness for duplicate registration: on the empty database, registering
alice twice gains one row and the second attempt answers 400. -/
theorem register_duplicate_email_witness :
    ((registerHandler none sampleDB regBody).2).users.length =
      sampleDB.users.length + 1 ∧
    (registerHandler none ((registerHandler none sampleDB regBody).2)
      regBody2).1.status = 400 :=
  ⟨(register_duplicate_email sampleDB regBody regBody2 (by decide)
      (by decide)).2.2.1,
   (register_duplicate_email sampleDB regBody regBody2 (by decide)
      (by decide)).2.2.2.1⟩

/-- Claim C6: a successful registration answers 201 and the returned user
object holds exactly the keys id, username and email — no password field and
no hash — for every input password. -/
theorem register_response_omits_password (db : DB) (b : Body)
    (hfresh : User.findOne db (b.get "email") = none) :
    (registerHandler none db b).1.status = 201 ∧
    ∃ j : Json, ((registerHandler none db b).1.body).lookup "user" = some j ∧
      j.keys = ["id", "username", "email"] ∧
      "password" ∉ j.keys ∧ j.lookup "password" = none ∧
      j = .obj [("id", .val (.num db.nextUserId)),
        ("username", .val (b.get "username")), ("email", .val (b.get "email"))] := by
  have hresp : (registerHandler none db b).1 =
      ⟨201, .obj [("message", .val (.str "User registered successfully")),
        ("user", .obj [("id", .val (.num db.nextUserId)),
          ("username", .val (b.get "username")),
          ("email", .val (b.get "email"))])]⟩ := by
    simp [registerHandler, hfresh, User.create]
  refine ⟨by rw [hresp], .obj [("id", .val (.num db.nextUserId)),
    ("username", .val (b.get "username")), ("email", .val (b.get "email"))],
    by rw [hresp]; rfl, rfl, by simp [Json.keys], rfl, rfl⟩

/-- Witness for the 201 registration response at a concrete body. -/
theorem register_response_omits_password_witness :
    (registerHandler none sampleDB regBody).1.status = 201 :=
  (register_response_omits_password sampleDB regBody (by decide)).1

/-- Claim C7: PUT on projects and tasks is a full-field replace: when no row
has the id, 404 and the state is untouched (no row created); when a row
exists, all updatable fields are overwritten with exactly the body values
(`undefined` for absent fields), the record is re-fetched by id and returned
with 200, and the table gains no row. -/
theorem put_is_full_replace (db : DB) (req : Request) :
    (Project.findByPk db req.paramsId = none →
      dispatch .updateProject none db req = (notFound404 "Project not found", db)) ∧
    (∀ p, Project.findByPk db req.paramsId = some p →
      dispatch .updateProject none db req =
        (⟨200, Project.toJson { p with
          name := req.body.get "name",
          description := req.body.get "description",
          status := req.body.get "status",
          dueDate := req.body.get "dueDate" }⟩,
         { db with projects := db.projects.map (fun q =>
            if q.id == req.paramsId then
              { q with
                name := req.body.get "name",
                description := req.body.get "description",
                status := req.body.get "status",
                dueDate := req.body.get "dueDate" }
            else q) }) ∧
      ((dispatch .updateProject none db req).2).projects.length =
        db.projects.length) ∧
    (Task.findByPk db req.paramsId = none →
      dispatch .updateTask none db req = (notFound404 "Task not found", db)) ∧
    (∀ t, Task.findByPk db req.paramsId = some t →
      dispatch .updateTask none db req =
        (⟨200, Task.toJson { t with
          title := req.body.get "title",
          description := req.body.get "description",
          completed := req.body.get "completed",
          priority := req.body.get "priority",
          dueDate := req.body.get "dueDate",
          projectId := req.body.get "projectId" }⟩,
         { db with tasks := db.tasks.map (fun q =>
            if q.id == req.paramsId then
              { q with
                title := req.body.get "title",
                description := req.body.get "description",
                completed := req.body.get "completed",
                priority := req.body.get "priority",
                dueDate := req.body.get "dueDate",
                projectId := req.body.get "projectId" }
            else q) }) ∧
      ((dispatch .updateTask none db req).2).tasks.length = db.tasks.length) := by
  refine ⟨?_, ?_, ?_, ?_⟩
  · intro hnone
    have hall := List.find?_eq_none.1 hnone
    have hflt : db.projects.filter (fun q => q.id == req.paramsId) = [] :=
      List.filter_eq_nil_iff.2 hall
    have hmap : db.projects.map (fun q =>
        if q.id == req.paramsId then
          { q with
            name := req.body.get "name",
            description := req.body.get "description",
            status := req.body.get "status",
            dueDate := req.body.get "dueDate" }
        else q) = db.projects := by
      rw [List.map_congr_left (fun a ha => if_neg (hall a ha)), List.map_id']
    simp only [dispatch, updateProjectHandler, Project.update]
    rw [hflt, hmap]
    simp
  · intro p hp
    have hmem := List.mem_of_find?_eq_some hp
    have hpa : (p.id == req.paramsId) = true :=
      List.find?_some (p := fun q : Project => q.id == req.paramsId) hp
    have hne : (db.projects.filter (fun q => q.id == req.paramsId)).length ≠ 0 := by
      intro h0
      rw [List.length_eq_zero] at h0
      have hin : p ∈ db.projects.filter (fun q => q.id == req.paramsId) :=
        List.mem_filter.2 ⟨hmem, hpa⟩
      rw [h0] at hin
      exact absurd hin (List.not_mem_nil p)
    have hrefetch : (db.projects.map (fun q =>
        if q.id == req.paramsId then
          { q with
            name := req.body.get "name",
            description := req.body.get "description",
            status := req.body.get "status",
            dueDate := req.body.get "dueDate" }
        else q)).find? (fun q => q.id == req.paramsId) =
        some { p with
          name := req.body.get "name",
          description := req.body.get "description",
          status := req.body.get "status",
          dueDate := req.body.get "dueDate" } :=
      find?_map_upd Project.id db.projects req.paramsId
        (fun q => { q with
          name := req.body.get "name",
          description := req.body.get "description",
          status := req.body.get "status",
          dueDate := req.body.get "dueDate" })
        (fun a => rfl) p hp
    have hbn : ¬(((db.projects.filter (fun q => q.id == req.paramsId)).length == 0)
        = true) := by simp [hne]
    have heq : dispatch .updateProject none db req =
        (⟨200, Project.toJson { p with
          name := req.body.get "name",
          description := req.body.get "description",
          status := req.body.get "status",
          dueDate := req.body.get "dueDate" }⟩,
         { db with projects := db.projects.map (fun q =>
            if q.id == req.paramsId then
              { q with
                name := req.body.get "name",
                description := req.body.get "description",
                status := req.body.get "status",
                dueDate := req.body.get "dueDate" }
            else q) }) := by
      simp only [dispatch, updateProjectHandler, Project.update, Project.findByPk]
      rw [if_neg hbn, hrefetch]
    exact ⟨heq, by rw [heq]; simp⟩
  · intro hnone
    have hall := List.find?_eq_none.1 hnone
    have hflt : db.tasks.filter (fun q => q.id == req.paramsId) = [] :=
      List.filter_eq_nil_iff.2 hall
    have hmap : db.tasks.map (fun q =>
        if q.id == req.paramsId then
          { q with
            title := req.body.get "title",
            description := req.body.get "description",
            completed := req.body.get "completed",
            priority := req.body.get "priority",
            dueDate := req.body.get "dueDate",
            projectId := req.body.get "projectId" }
        else q) = db.tasks := by
      rw [List.map_congr_left (fun a ha => if_neg (hall a ha)), List.map_id']
    simp only [dispatch, updateTaskHandler, Task.update]
    rw [hflt, hmap]
    simp
  · intro t ht
    have hmem := List.mem_of_find?_eq_some ht
    have hpa : (t.id == req.paramsId) = true :=
      List.find?_some (p := fun q : Task => q.id == req.paramsId) ht
    have hne : (db.tasks.filter (fun q => q.id == req.paramsId)).length ≠ 0 := by
      intro h0
      rw [List.length_eq_zero] at h0
      have hin : t ∈ db.tasks.filter (fun q => q.id == req.paramsId) :=
        List.mem_filter.2 ⟨hmem, hpa⟩
      rw [h0] at hin
      exact absurd hin (List.not_mem_nil t)
    have hrefetch : (db.tasks.map (fun q =>
        if q.id == req.paramsId then
          { q with
            title := req.body.get "title",
            description := req.body.get "description",
            completed := req.body.get "completed",
            priority := req.body.get "priority",
            dueDate := req.body.get "dueDate",
            projectId := req.body.get "projectId" }
        else q)).find? (fun q => q.id == req.paramsId) =
        some { t with
          title := req.body.get "title",
          description := req.body.get "description",
          completed := req.body.get "completed",
          priority := req.body.get "priority",
          dueDate := req.body.get "dueDate",
          projectId := req.body.get "projectId" } :=
      find?_map_upd Task.id db.tasks req.paramsId
        (fun q => { q with
          title := req.body.get "title",
          description := req.body.get "description",
          completed := req.body.get "completed",
          priority := req.body.get "priority",
          dueDate := req.body.get "dueDate",
          projectId := req.body.get "projectId" })
        (fun a => rfl) t ht
    have hbn : ¬(((db.tasks.filter (fun q => q.id == req.paramsId)).length == 0)
        = true) := by simp [hne]
    have heq : dispatch .updateTask none db req =
        (⟨200, Task.toJson { t with
          title := req.body.get "title",
          description := req.body.get "description",
          completed := req.body.get "completed",
          priority := req.body.get "priority",
          dueDate := req.body.get "dueDate",
          projectId := req.body.get "projectId" }⟩,
         { db with tasks := db.tasks.map (fun q =>
            if q.id == req.paramsId then
              { q with
                title := req.body.get "title",
                description := req.body.get "description",
                completed := req.body.get "completed",
                priority := req.body.get "priority",
                dueDate := req.body.get "dueDate",
                projectId := req.body.get "projectId" }
            else q) }) := by
      simp only [dispatch, updateTaskHandler, Task.update, Task.findByPk]
      rw [if_neg hbn, hrefetch]
    exact ⟨heq, by rw [heq]; simp⟩

/-- Witness for PUT semantics: updating the missing id 1 on the empty database
answers 404 unchanged; updating the one stored project keeps the table length. -/
theorem put_is_full_replace_witness :
    dispatch .updateProject none sampleDB noSessionReq =
      (notFound404 "Project not found", sampleDB) ∧
    ((dispatch .updateProject none oneProjDB updReq).2).projects.length =
      oneProjDB.projects.length :=
  ⟨(put_is_full_replace sampleDB noSessionReq).1 (by decide),
   ((put_is_full_replace oneProjDB updReq).2.1
     ⟨1, .str "p1", .undefined, .undefined, .undefined, .num 7⟩ (by decide)).2⟩

/-- Claim C8: DELETE answers 404 and removes nothing when the id is absent;
when the id exists the matching row is removed and the answer is 200 with the
deleted-successfully message; a second DELETE of the same id answers 404. -/
theorem delete_removes_or_404 (db : DB) (req : Request) :
    (Project.findByPk db req.paramsId = none →
      dispatch .deleteProject none db req = (notFound404 "Project not found", db)) ∧
    (∀ p, Project.findByPk db req.paramsId = some p →
      dispatch .deleteProject none db req =
        (⟨200, .obj [("message", .val (.str "Project deleted successfully"))]⟩,
         { db with projects := db.projects.filter (fun q => q.id != req.paramsId) }) ∧
      (dispatch .deleteProject none
        ((dispatch .deleteProject none db req).2) req).1.status = 404) ∧
    (Task.findByPk db req.paramsId = none →
      dispatch .deleteTask none db req = (notFound404 "Task not found", db)) ∧
    (∀ t, Task.findByPk db req.paramsId = some t →
      dispatch .deleteTask none db req =
        (⟨200, .obj [("message", .val (.str "Task deleted successfully"))]⟩,
         { db with tasks := db.tasks.filter (fun q => q.id != req.paramsId) }) ∧
      (dispatch .deleteTask none
        ((dispatch .deleteTask none db req).2) req).1.status = 404) := by
  have hp404 : ∀ db2 : DB, Project.findByPk db2 req.paramsId = none →
      dispatch .deleteProject none db2 req = (notFound404 "Project not found", db2) := by
    intro db2 hnone
    have hall := List.find?_eq_none.1 hnone
    have hfilt : db2.projects.filter (fun q => q.id != req.paramsId) = db2.projects :=
      List.filter_eq_self.2 (fun a ha => by
        have hfa : (a.id == req.paramsId) = false := Bool.eq_false_iff.2 (hall a ha)
        simp [bne, hfa])
    simp only [dispatch, deleteProjectHandler, Project.destroy]
    rw [hfilt]
    simp
  have ht404 : ∀ db2 : DB, Task.findByPk db2 req.paramsId = none →
      dispatch .deleteTask none db2 req = (notFound404 "Task not found", db2) := by
    intro db2 hnone
    have hall := List.find?_eq_none.1 hnone
    have hfilt : db2.tasks.filter (fun q => q.id != req.paramsId) = db2.tasks :=
      List.filter_eq_self.2 (fun a ha => by
        have hfa : (a.id == req.paramsId) = false := Bool.eq_false_iff.2 (hall a ha)
        simp [bne, hfa])
    simp only [dispatch, deleteTaskHandler, Task.destroy]
    rw [hfilt]
    simp
  refine ⟨hp404 db, ?_, ht404 db, ?_⟩
  · intro p hp
    have hmem := List.mem_of_find?_eq_some hp
    have hpa : (p.id == req.paramsId) = true :=
      List.find?_some (p := fun q : Project => q.id == req.paramsId) hp
    have hcnt : db.projects.length -
        (db.projects.filter (fun q => q.id != req.paramsId)).length ≠ 0 := by
      rw [length_sub_filter_ne Project.id db.projects req.paramsId]
      intro h0
      rw [List.length_eq_zero] at h0
      have hin : p ∈ db.projects.filter (fun q => q.id == req.paramsId) :=
        List.mem_filter.2 ⟨hmem, hpa⟩
      rw [h0] at hin
      exact absurd hin (List.not_mem_nil p)
    have hbn : ¬(((db.projects.length -
        (db.projects.filter (fun q => q.id != req.paramsId)).length) == 0) = true) := by
      simp [hcnt]
    have heq : dispatch .deleteProject none db req =
        (⟨200, .obj [("message", .val (.str "Project deleted successfully"))]⟩,
         { db with projects := db.projects.filter (fun q => q.id != req.paramsId) }) := by
      simp only [dispatch, deleteProjectHandler, Project.destroy]
      rw [if_neg hbn]
    refine ⟨heq, ?_⟩
    have hnone2 : Project.findByPk
        { db with projects := db.projects.filter (fun q => q.id != req.paramsId) }
        req.paramsId = none := by
      apply List.find?_eq_none.2
      intro x hx
      have hxf := (List.mem_filter.1 hx).2
      simp only [bne, Bool.not_eq_true'] at hxf
      exact fun hcontra => by simp [hcontra] at hxf
    rw [heq]
    dsimp only
    rw [hp404 _ hnone2]
    rfl
  · intro t ht
    have hmem := List.mem_of_find?_eq_some ht
    have hpa : (t.id == req.paramsId) = true :=
      List.find?_some (p := fun q : Task => q.id == req.paramsId) ht
    have hcnt : db.tasks.length -
        (db.tasks.filter (fun q => q.id != req.paramsId)).length ≠ 0 := by
      rw [length_sub_filter_ne Task.id db.tasks req.paramsId]
      intro h0
      rw [List.length_eq_zero] at h0
      have hin : t ∈ db.tasks.filter (fun q => q.id == req.paramsId) :=
        List.mem_filter.2 ⟨hmem, hpa⟩
      rw [h0] at hin
      exact absurd hin (List.not_mem_nil t)
    have hbn : ¬(((db.tasks.length -
        (db.tasks.filter (fun q => q.id != req.paramsId)).length) == 0) = true) := by
      simp [hcnt]
    have heq : dispatch .deleteTask none db req =
        (⟨200, .obj [("message", .val (.str "Task deleted successfully"))]⟩,
         { db with tasks := db.tasks.filter (fun q => q.id != req.paramsId) }) := by
      simp only [dispatch, deleteTaskHandler, Task.destroy]
      rw [if_neg hbn]
    refine ⟨heq, ?_⟩
    have hnone2 : Task.findByPk
        { db with tasks := db.tasks.filter (fun q => q.id != req.paramsId) }
        req.paramsId = none := by
      apply List.find?_eq_none.2
      intro x hx
      have hxf := (List.mem_filter.1 hx).2
      simp only [bne, Bool.not_eq_true'] at hxf
      exact fun hcontra => by simp [hcontra] at hxf
    rw [heq]
    dsimp only
    rw [ht404 _ hnone2]
    rfl

/-- Witness for DELETE semantics: deleting the one stored project answers 200
and a second delete of the same id answers 404. -/
theorem delete_removes_or_404_witness :
    dispatch .deleteProject none oneProjDB noSessionReq =
      (⟨200, .obj [("message", .val (.str "Project deleted successfully"))]⟩,
       { oneProjDB with
         projects := oneProjDB.projects.filter (fun q => q.id != 1) }) ∧
    (dispatch .deleteProject none
      ((dispatch .deleteProject none oneProjDB noSessionReq).2)
      noSessionReq).1.status = 404 :=
  (delete_removes_or_404 oneProjDB noSessionReq).2.1
    ⟨1, .str "p1", .undefined, .undefined, .undefined, .num 7⟩ (by decide)

/-- Claim C9: when the persistence call inside any handler throws, the handler
catches it and answers 500 with a fixed generic per-resource message; the
response is the same constant for every exception value, so no error detail
ever reaches the client. -/
theorem persistence_exception_maps_to_generic_500 (e : String) (db : DB)
    (req : Request) :
    dispatch .getProject (some e) db req = (generic500 "Failed to fetch project", db) ∧
    dispatch .updateProject (some e) db req = (generic500 "Failed to update project", db) ∧
    dispatch .deleteProject (some e) db req = (generic500 "Failed to delete project", db) ∧
    dispatch .listTasks (some e) db req = (generic500 "Failed to fetch tasks", db) ∧
    dispatch .getTask (some e) db req = (generic500 "Failed to fetch task", db) ∧
    dispatch .createTask (some e) db req = (generic500 "Failed to create task", db) ∧
    dispatch .updateTask (some e) db req = (generic500 "Failed to update task", db) ∧
    dispatch .deleteTask (some e) db req = (generic500 "Failed to delete task", db) ∧
    dispatch .register (some e) db req = (generic500 "Failed to register user", db) ∧
    dispatch .login (some e) db req = (generic500 "Failed to login", db) ∧
    dispatch .logout (some e) db req = (generic500 "Failed to logout", db) ∧
    ((requireAuth req).isSome = true →
      dispatch .listProjects (some e) db req =
        (generic500 "Failed to fetch projects", db) ∧
      dispatch .createProject (some e) db req =
        (generic500 "Failed to create project", db)) := by
  refine ⟨rfl, rfl, rfl, rfl, rfl, rfl, rfl, rfl, rfl, rfl, rfl, ?_⟩
  intro h
  rcases Option.isSome_iff_exists.1 h with ⟨u, hu⟩
  simp [dispatch, hu, getProjectsHandler, createProjectHandler]

/-- Witness for the generic-500 mapping: a gated route with a resolved session
maps a thrown persistence error to the fixed 500 body. -/
theorem persistence_exception_maps_to_generic_500_witness :
    dispatch .listProjects (some "boom") sampleDB sampleReq =
      (generic500 "Failed to fetch projects", sampleDB) :=
  ((persistence_exception_maps_to_generic_500 "boom" sampleDB
    sampleReq).2.2.2.2.2.2.2.2.2.2.2 (by decide)).1

end SrvSpec
